import Mathlib

/-!
Verification development for the guardrails integration repository.

The definitions below are a shallow embedding of the Python sources:

* `src/gr_integration/hub_adapter.py` — `GuardrailsHubAdapter.run`, the hub
  evaluation loop (scope filter, regex special-casing, target resolution,
  parameter building, delegate invocation, result normalization, violation
  aggregation).
* `src/gr_integration/guardrails_api_service.py` — the overall-validity
  computation from the details returned by `run`.
* `src/gr_integration/guardrails_service.py` / `src/guardrails/guardrails_service.py`
  — the scope-filtered evaluation pipeline.
* `src/guardrails/regex_guardrail.py`, `src/guardrails/blocklist_guardrail.py`,
  `src/guardrails/pii_guardrail.py` — the detection checks.

External collaborators (the third-party guardrails catalog reached through
`importlib`, `Guard().use(...).validate(...)`, and the Python `re` engine used
by `RegexGuardrail`/`PIIGuardrail`) are not code of this repository; they enter
the embedding as explicit function parameters (`resolve`, `invoke`, `search`,
`compile`, `detect`).  The blocklist matcher, whose word-boundary semantics the
spec fixes, is embedded concretely (ASCII word characters, as exercised by the
repository's inputs).
-/

namespace GrSpec

/-! ## Python-like dynamic values

Python dict/tuple values flowing through `GuardrailsHubAdapter.run` are
dynamically typed.  `PyVal` models the value shapes the adapter inspects:
strings, booleans, `None`, lists, and a constructor for any other object. -/

inductive PyVal where
  | vStr (s : String)
  | vBool (b : Bool)
  | vNone
  | vList (xs : List PyVal)
  | vOther

/-- Python truthiness for the shapes in `PyVal` (`bool(x)`): a string is truthy
iff nonempty, a list iff nonempty, `None` is falsy, other objects truthy. -/
def truthy : PyVal → Bool
  | .vStr s => decide (s ≠ "")
  | .vBool b => b
  | .vNone => false
  | .vList xs => !xs.isEmpty
  | .vOther => true

/-- Python `a or b`: `a` when truthy, else `b`. -/
def pyOr (a b : PyVal) : PyVal := if truthy a then a else b

/-- Python `a or b` on optional strings with a string default
(`(x or "dflt")`): `None` and `""` are falsy. -/
def pyOrStr (a : Option String) (b : String) : String :=
  match a with
  | some s => if s = "" then b else s
  | none => b

/-- An optional string field read back as the Python value it holds
(`None` for a missing field). -/
def optToPy : Option String → PyVal
  | some s => .vStr s
  | none => .vNone

/-- Python `str(x)` for the embedded value shapes (the renderings for lists and
foreign objects are representative; no claim depends on them). -/
def pyStr : PyVal → String
  | .vStr s => s
  | .vBool true => "True"
  | .vBool false => "False"
  | .vNone => "None"
  | .vList _ => "[...]"
  | .vOther => "<object>"

/-! ## Python dicts as insertion-ordered association lists -/

/-- Python `k in d`. -/
def hasKey (d : List (String × PyVal)) (k : String) : Bool :=
  d.any (fun e => decide (e.fst = k))

/-- Python `d.get(k)` (missing key gives `None`). -/
def dictGet (d : List (String × PyVal)) (k : String) : PyVal :=
  match d.find? (fun e => decide (e.fst = k)) with
  | some e => e.snd
  | none => .vNone

/-- Python `d.get(k, dflt)`. -/
def getDefault (d : List (String × PyVal)) (k : String) (dflt : PyVal) : PyVal :=
  if hasKey d k then dictGet d k else dflt

/-- Python `d[k] = val`: replace in place when the key exists, else append. -/
def dictSet (d : List (String × PyVal)) (k : String) (val : PyVal) :
    List (String × PyVal) :=
  if hasKey d k then d.map (fun e => if e.fst = k then (k, val) else e)
  else d ++ [(k, val)]

/-- Python `d.setdefault(k, val)`. -/
def setDefault (d : List (String × PyVal)) (k : String) (val : PyVal) :
    List (String × PyVal) :=
  if hasKey d k then d else d ++ [(k, val)]

/-- Python `s.lower()` (character-wise lowering). -/
def strLower (s : String) : String := String.mk (s.toList.map Char.toLower)

/-- Python `str.strip()` whitespace set. -/
def pyIsSpace (c : Char) : Bool :=
  c = ' ' || c = '\t' || c = '\n' || c = '\r' || c = '\x0b' || c = '\x0c'

/-- Python `s.strip()`. -/
def strStrip (s : String) : String :=
  String.mk (((s.toList.dropWhile pyIsSpace).reverse.dropWhile pyIsSpace).reverse)

/-- Split a character list at every character satisfying `p`, keeping empty
groups (the semantics of `re.split("[...]", s)` and `s.split(sep)`). -/
def splitChars (p : Char → Bool) : List Char → List (List Char)
  | [] => [[]]
  | c :: cs =>
    let r := splitChars p cs
    if p c then [] :: r
    else
      match r with
      | g :: gs => (c :: g) :: gs
      | [] => [[c]]

/-- Python `s.split(...)` on a character predicate. -/
def splitOnPred (p : Char → Bool) (s : String) : List String :=
  (splitChars p s.toList).map String.mk

/-- Python `s.endswith(suf)`. -/
def endsWithStr (s suf : String) : Bool :=
  decide (s.toList.drop (s.toList.length - suf.toList.length) = suf.toList)

/-- Python `s.startswith(pre)`. -/
def startsWithStr (s pre : String) : Bool :=
  decide (s.toList.take pre.toList.length = pre.toList)

/-! ## Scope model (`src/gr_integration/dto.py`: `GuardrailsScope`) -/

inductive GuardrailsScope where
  | input
  | output
  | both
  deriving DecidableEq, Repr

/-- The enum's string value (`GuardrailsScope.INPUT.value` etc.). -/
def GuardrailsScope.value : GuardrailsScope → String
  | .input => "input"
  | .output => "output"
  | .both => "both"

/-- Embeds `_scope_matches(v_scope, runtime_scope)` from
`src/gr_integration/hub_adapter.py` (lines 89–92):
`v = (v_scope or "both").strip().lower()`, `rs = (runtime_scope or "both").strip().lower()`,
`return v == "both" or v == rs`. -/
def scopeMatchesRun (vScope rtScope : Option String) : Bool :=
  let v := strLower (strStrip (pyOrStr vScope "both"))
  let rs := strLower (strStrip (pyOrStr rtScope "both"))
  decide (v = "both") || decide (v = rs)

/-! ## Scope-filtered evaluation pipeline
(`GuardrailsService.validate`, identical filter in
`src/gr_integration/guardrails_service.py` lines 17–23 and
`src/guardrails/guardrails_service.py` lines 20–26).

A guardrail configuration carries its scope; the per-guardrail check
(`instance.validate(agent_context, text)`, produced by the factory) is
abstracted as the function parameter `check`.  The returned second component
instruments which guardrail configurations actually ran, in order. -/

structure AgentGuardrail where
  scope : GuardrailsScope := .both
  gtype : String := "regex_match"
  pattern : Option String := none
  deriving DecidableEq, Repr

/-- Embeds `GuardrailsService.validate`: fold over the guardrail list; a guardrail
runs iff `gr.scope in (scope, GuardrailsScope.BOTH)`, threading the text. -/
def GuardrailsService.validate (check : AgentGuardrail → String → String)
    (guardrails : List AgentGuardrail) (userInput : String)
    (scope : GuardrailsScope) : String × List AgentGuardrail :=
  guardrails.foldl
    (fun acc gr =>
      if gr.scope = scope ∨ gr.scope = GuardrailsScope.both then
        (check gr acc.1, acc.2 ++ [gr])
      else acc)
    (userInput, [])

/-! ## Hub adapter (`src/gr_integration/hub_adapter.py`, `GuardrailsHubAdapter.run`)

The embedding covers the operative path of `run`: the adapter is available and
the `guardrails` core imports (when either fails the Python code returns the
input text with an empty / error details dict and records no violations).
The external machinery is passed in as parameters:

* `resolve` — `_resolve_hub_cls` (importlib lookup over the catalog namespace,
  plugin import, dynamic hub load); returns the resolved class or `none`.
* `search` — `re.search(pattern, text)` in the local regex fallback; a raised
  exception (e.g. compile error) is an `Except.error`.
* `invoke` — `Guard().use(target, **params).validate(text)`; a raised
  exception is an `Except.error` carrying `str(err)`. -/

/-- A resolved validator class (opaque handle to an external capability). -/
def Cap := String

/-- One entry of `validators_config`: a Python dict whose recognized keys are
the fields below; `extras` holds any remaining keys (forwarded to params).
`patternCap` is the `"Pattern"` key (not in the reserved set). -/
structure HubValidator where
  vtype : Option String := none      -- "type"
  scope : Option String := none      -- "scope"
  hubId : Option String := none      -- "hub_id"
  pattern : Option String := none    -- "pattern"
  patternCap : Option String := none -- "Pattern"
  onFail : Option String := none     -- "on_fail"
  params : List (String × PyVal) := []
  extras : List (String × PyVal) := []

/-- A Violation Record as appended to `violations`:
`{"type": v.get("type") or "unknown", "scope": v.get("scope") or "both",
"params": ..., "error": ...}`. -/
structure Violation where
  vtype : String
  scope : String
  params : List (String × PyVal)
  error : String

/-- Python `(v.get("type") or "").strip().lower()`. -/
def typeNorm (v : HubValidator) : String := strLower (strStrip (v.vtype.getD ""))

/-- Python `(v.get("hub_id") or "").strip().lower()`. -/
def hubIdNorm (v : HubValidator) : String := strLower (strStrip (v.hubId.getD ""))

/-- Line 186: `t in {"regex", "regex_match"} or
hub_id.endswith(("regex_match", "/regex", "regex"))`. -/
def regexShaped (v : HubValidator) : Bool :=
  decide (typeNorm v = "regex") || decide (typeNorm v = "regex_match") ||
  endsWithStr (hubIdNorm v) "regex_match" || endsWithStr (hubIdNorm v) "/regex" ||
  endsWithStr (hubIdNorm v) "regex"

/-- Line 187: `v.get("pattern") or v.get("Pattern") or params.get("pattern")
or params.get("regex") or ""` (evaluated against the initial
`params = dict(v.get("params") or {})`). -/
def patternChain (v : HubValidator) : PyVal :=
  pyOr (optToPy v.pattern) (pyOr (optToPy v.patternCap)
    (pyOr (dictGet v.params "pattern") (pyOr (dictGet v.params "regex") (.vStr ""))))

/-- Reserved keys not forwarded from the validator dict into params
(line 203). -/
def reservedKeys : List String := ["type", "scope", "hub_id", "pattern", "on_fail", "params"]

/-- Lines 203–206: forward every non-reserved key of the validator dict that
is not already in params (`"Pattern"` first, then the remaining extras,
mirroring one insertion order of the source dict). -/
def forwardExtras (params : List (String × PyVal)) (v : HubValidator) :
    List (String × PyVal) :=
  let p1 := match v.patternCap with
    | some s => if hasKey params "Pattern" then params else params ++ [("Pattern", .vStr s)]
    | none => params
  v.extras.foldl
    (fun acc kv =>
      if kv.fst ∈ reservedKeys ∨ hasKey acc kv.fst then acc else acc ++ [kv])
    p1

/-- The parameter dict as built for a validator after the regex special-case:
optional `params["pattern"] = pattern` (line 199),
`params.setdefault("on_fail", v.get("on_fail") or "exception")` (line 201),
then the reserved-key forwarding loop (lines 203–206). -/
def buildParams (v : HubValidator) : List (String × PyVal) :=
  let params1 := if regexShaped v then dictSet v.params "pattern" (patternChain v)
                 else v.params
  forwardExtras (setDefault params1 "on_fail" (.vStr (pyOrStr v.onFail "exception"))) v

/-- Line 209: `target = cls or (v.get("hub_id") or v.get("type"))` — the
resolved class, else the raw hub id / type identifier when truthy. -/
inductive Target where
  | cls (c : Cap)
  | ident (s : String)

/-- Here `computeTarget` returns `none` exactly when `target` is falsy
(`if not target:` at line 210). -/
def computeTarget (cls? : Option Cap) (v : HubValidator) : Option Target :=
  match cls? with
  | some c => some (.cls c)
  | none =>
    match pyOr (optToPy v.hubId) (optToPy v.vtype) with
    | .vStr s => if s = "" then none else some (.ident s)
    | _ => none

/-- A delegate's return value, as inspected by the normalization code
(lines 268–291): a tuple, a dict, a bare string, or anything else. -/
inductive PyResult where
  | tup (elems : List PyVal)
  | pdict (entries : List (String × PyVal))
  | pstr (s : String)
  | other

/-- The validity-key synonym list of line 283. -/
def validityKeys : List String := ["valid", "is_valid", "passed", "ok", "success"]

/-- Python `for key in (...): if key in result: is_valid = bool(result.get(key)); break`. -/
def findValidity (entries : List (String × PyVal)) : List String → Option Bool
  | [] => none
  | k :: ks =>
    if hasKey entries k then some (truthy (dictGet entries k))
    else findValidity entries ks

/-- Result normalization, lines 268–291 of `run`: given the currently threaded
`sanitized_text` and the delegate result, produce the new
`(sanitized_text, is_valid)`.  `is_valid` starts as `True`. -/
def parseResult (sanitized : PyVal) : PyResult → PyVal × Bool
  | .tup elems =>
    let isValid := match elems.get? 1 with
      | some (PyVal.vBool b) => b
      | _ => true
    let txt := match elems.get? 0 with
      | some (PyVal.vStr s) => PyVal.vStr s
      | _ => sanitized
    (txt, isValid)
  | .pdict entries =>
    let txt := pyOr (dictGet entries "text")
      (pyOr (dictGet entries "validated_text")
        (pyOr (dictGet entries "output") sanitized))
    let isValid := (findValidity entries validityKeys).getD true
    (txt, isValid)
  | .pstr s => (.vStr s, true)
  | .other => (sanitized, true)

/-- Python `x != s` for a `PyVal` against a string literal: value inequality
(any non-string value is unequal to a string). -/
def pyNeqStr (x : PyVal) (s : String) : Bool :=
  match x with
  | .vStr t => decide (t ≠ s)
  | _ => true

/-- Mutable state of the loop in `run`: the threaded text, the violation list,
and the per-validator `invalid_flags`. -/
structure RunState where
  sanitized : PyVal
  violations : List Violation
  invalidFlags : List Bool

/-- The redacted params of a violation record:
`{"on_fail": params.get("on_fail")}`. -/
def redacted (params : List (String × PyVal)) : List (String × PyVal) :=
  [("on_fail", dictGet params "on_fail")]

/-- One iteration of the `for v in (validators_config or [])` loop of `run`
(lines 176–306), for a single validator dict `v`. -/
def runStep (resolve : HubValidator → Option Cap)
    (search : PyVal → PyVal → Except String Bool)
    (invoke : Target → List (String × PyVal) → PyVal → Except String PyResult)
    (runtimeScope : Option String) (st : RunState) (v : HubValidator) : RunState :=
  if !scopeMatchesRun v.scope runtimeScope then st
  else
    let cls? := resolve v
    let vtypeU := pyOrStr v.vtype "unknown"
    let scopeB := pyOrStr v.scope "both"
    -- lines 186–199: regex-shaped validators require a pattern
    if regexShaped v ∧ ¬ truthy (patternChain v) then
      { st with
        violations := st.violations ++
          [⟨vtypeU, scopeB, redacted v.params, "validator_missing_pattern"⟩],
        invalidFlags := st.invalidFlags ++ [true] }
    else
      let params := buildParams v
      match computeTarget cls? v with
      | none =>
        -- lines 210–219: no class and no hub_id/type identifier
        { st with
          violations := st.violations ++
            [⟨vtypeU, scopeB, params, "validator_not_found"⟩],
          invalidFlags := st.invalidFlags ++ [true] }
      | some target =>
        let doLocalRegex := match target with
          | .ident s => startsWithStr s "guardrails/" && regexShaped v
          | .cls _ => false
        if doLocalRegex then
          -- lines 222–247: local regex fallback via `re.search`
          match search (pyOr (dictGet params "pattern") (.vStr "")) st.sanitized with
          | .error reErr =>
            { st with
              violations := st.violations ++
                [⟨vtypeU, scopeB, redacted params,
                  "validator_regex_compile_error: " ++ reErr⟩],
              invalidFlags := st.invalidFlags ++ [true] }
          | .ok matched =>
            if matched then { st with invalidFlags := st.invalidFlags ++ [false] }
            else
              { st with
                invalidFlags := st.invalidFlags ++ [true],
                violations := st.violations ++
                  [⟨vtypeU, scopeB, redacted params, "validator_failed"⟩] }
        else
          -- lines 248–306: delegate invocation and result normalization
          match invoke target params st.sanitized with
          | .error err =>
            { st with
              violations := st.violations ++ [⟨vtypeU, scopeB, params, err⟩],
              invalidFlags := st.invalidFlags ++
                [pyNeqStr (getDefault params "on_fail" (.vStr "exception")) "noop"] }
          | .ok result =>
            let pr := parseResult st.sanitized result
            { sanitized := pr.1,
              invalidFlags := st.invalidFlags ++ [!pr.2],
              violations := st.violations ++
                (if pr.2 then []
                 else [⟨vtypeU, scopeB, redacted params, "validator_failed"⟩]) }

/-- The details dict returned by `run`:
`{"valid": not any(invalid_flags), "violations": violations}` (line 309). -/
structure RunDetails where
  valid : Bool
  violations : List Violation

/-- Embeds `GuardrailsHubAdapter.run(text, validators_config, scope)` on the operative
path (adapter available, core importable): the loop over the configs followed
by the aggregation of line 309. -/
def GuardrailsHubAdapter.run (resolve : HubValidator → Option Cap)
    (search : PyVal → PyVal → Except String Bool)
    (invoke : Target → List (String × PyVal) → PyVal → Except String PyResult)
    (text : String) (validatorsConfig : List HubValidator)
    (scope : Option String) : PyVal × RunDetails :=
  let rt := pyOrStr scope "both"
  let final := validatorsConfig.foldl
    (runStep resolve search invoke (some rt))
    ⟨.vStr text, [], []⟩
  (final.sanitized, ⟨!final.invalidFlags.any id, final.violations⟩)

/-- The overall-validity computation of `GuardrailsApiService.validate`
(`src/gr_integration/guardrails_api_service.py` lines 74–85):
`is_valid = bool(details.get("valid", True))`, then any nonempty violation
list forces `is_valid = False`. -/
def apiHubIsValid (details : RunDetails) : Bool :=
  if details.violations.length > 0 then false else details.valid

/-! ## Detection checks -/

/-- A match span as produced by the detection checks:
`{"start": m.start(), "end": m.end(), "value": m.group(0)}`. -/
structure Span where
  start : Nat
  stop : Nat
  value : String
  deriving DecidableEq, Repr

/-- Embeds `RegexGuardrail.validate` (`src/guardrails/regex_guardrail.py` lines
15–27).  The Python `re` engine is external: `compile` returns the compiled
pattern's finditer (span producer) or `none` when `re.compile` raises
`re.error`.  The check touches the engine only when the pattern is nonempty;
a compile failure yields zero matches; the input text is always returned
unchanged. -/
def RegexGuardrail.validate (compile : String → Option (String → List Span))
    (pattern : Option String) (userInput : String) : String × List Span :=
  let p := pattern.getD ""
  if p = "" then (userInput, [])
  else
    match compile p with
    | none => (userInput, [])
    | some finditer => (userInput, finditer userInput)

/-! ### Blocklist (`src/guardrails/blocklist_guardrail.py`)

The word-boundary matcher (`re.compile(rf"\b{re.escape(w)}\b", re.IGNORECASE)`
with literal `w`, scanned by `finditer`) is embedded concretely: `\w` is
modeled as the ASCII word characters (letters, digits, underscore), which is
what the repository's inputs exercise. -/

/-- ASCII `\w`. -/
def isWordChar (c : Char) : Bool := c.isAlphanum || c = '_'

def lowerChars (cs : List Char) : List Char := cs.map Char.toLower

/-- Whether position `i` of `txt` holds a word character (out of range: no). -/
def wordAt (txt : List Char) (i : Nat) : Bool :=
  match txt.get? i with
  | some c => isWordChar c
  | none => false

/-- Boundary `\b` at position `i`: word-ness changes between positions `i-1` and `i`
(positions outside the text count as non-word). -/
def boundaryAt (txt : List Char) (i : Nat) : Bool :=
  (match i with
   | 0 => false
   | j + 1 => wordAt txt j) != wordAt txt i

/-- The lowercase term `w` occurs at position `i` of `txt`,
case-insensitively (the compiled pattern is the escaped literal with
`re.IGNORECASE`). -/
def matchesAt (txt w : List Char) (i : Nat) : Bool :=
  decide (lowerChars ((txt.drop i).take w.length) = w)

/-- A whole-word occurrence of `w` at `i`: the literal matches and both ends
sit on a `\b` boundary. -/
def wbMatchAt (txt w : List Char) (i : Nat) : Bool :=
  matchesAt txt w i && boundaryAt txt i && boundaryAt txt (i + w.length)

/-- The `finditer` scan for the word-boundary pattern: leftmost match first,
resuming after each match (non-overlapping), fuelled by the remaining
length. -/
def findFrom (txt w : List Char) : Nat → Nat → List Nat
  | _, 0 => []
  | i, fuel + 1 =>
    if txt.length < i + w.length then []
    else if wbMatchAt txt w i then i :: findFrom txt w (i + w.length) fuel
    else findFrom txt w (i + 1) fuel

/-- The spans of all whole-word matches of the term `w` in `txt`
(`pattern.finditer(user_input)` at lines 35–36). -/
def wbSpans (txt w : List Char) : List Span :=
  (findFrom txt w 0 (txt.length + 1)).map
    (fun i => ⟨i, i + w.length, String.mk ((txt.drop i).take w.length)⟩)

/-- First index of substring `nee` in `hay` (`str.find`), `none` when absent
(`nee in hay` is `isSome`). -/
def substrFind (hay nee : List Char) : Option Nat :=
  (List.range (hay.length + 1)).find?
    (fun i => decide ((hay.drop i).take nee.length = nee))

/-- Embeds `_parse_words` (`src/guardrails/blocklist_guardrail.py` lines 9–10):
split on commas and newlines, strip, lower, drop empties. -/
def splitTerms (s : String) : List String :=
  ((splitOnPred (fun c => c = ',' || c = '\n') s).map
    (fun w => strLower (strStrip w))).filter (fun w => w ≠ "")

/-- The body of the `for w in words` loop (lines 32–40): append all
word-boundary matches of `w`, then a single substring fallback when `w`
occurs in the lowered text and no collected match value lowers to `w`. -/
def blocklistStep (txt : List Char) (acc : List Span) (w : String) : List Span :=
  let ms := acc ++ wbSpans txt w.toList
  match substrFind (lowerChars txt) w.toList with
  | some idx =>
    if ms.any (fun s => strLower s.value = w) then ms
    else ms ++ [⟨idx, idx + w.toList.length,
                 String.mk ((txt.drop idx).take w.toList.length)⟩]
  | none => ms

/-- Embeds `BlocklistGuardrail.validate` (lines 20–42): run the loop over the parsed
terms; the input text is returned unchanged, matches are reported as
details. -/
def BlocklistGuardrail.validate (pattern : String) (userInput : String) :
    String × List Span :=
  (userInput, (splitTerms pattern).foldl (blocklistStep userInput.toList) [])

/-! ### PII (`src/guardrails/pii_guardrail.py`)

`_detect` runs fixed per-category patterns through the external `re` engine;
it enters the embedding as the parameter `detect` (text and selected category
list to spans).  The category-selection logic of `validate` (lines 46–69) is
embedded concretely. -/

/-- A PII span (`{"start", "end", "value", "type"}`). -/
structure PiiSpan where
  start : Nat
  stop : Nat
  value : String
  ptype : String
  deriving DecidableEq, Repr

/-- Embeds `PIIGuardrail.DEFAULT_TYPES`. -/
def piiDefaultTypes : List String := ["email", "credit_card", "ip", "url", "api_key"]

/-- Category selection of `PIIGuardrail.validate` lines 49–64: boolean
toggles from params (`email`, `phone_number`/`phone`/`phonenumber`,
`credit_card`), overridden by a nonempty `params["pii_types"]` list, falling
back to the comma-split pattern, defaulting to `DEFAULT_TYPES`. -/
def piiSelectedTypes (params : List (String × PyVal)) (pattern : String) :
    List String :=
  let toggles :=
    (if truthy (dictGet params "email") then ["email"] else []) ++
    (if truthy (dictGet params "phone_number") || truthy (dictGet params "phone") ||
        truthy (dictGet params "phonenumber") then ["phone_number"] else []) ++
    (if truthy (dictGet params "credit_card") then ["credit_card"] else [])
  let selected :=
    match dictGet params "pii_types" with
    | .vList xs =>
      if xs.isEmpty then toggles
      else ((xs.map (fun t => strLower (strStrip (pyStr t)))).filter (fun t => t ≠ ""))
    | _ => toggles
  if selected = [] then
    let fromPattern :=
      ((splitOnPred (fun c => c = ',') pattern).map
        (fun t => strLower (strStrip t))).filter (fun t => t ≠ "")
    if fromPattern = [] then piiDefaultTypes else fromPattern
  else selected

/-- Embeds `PIIGuardrail.validate` (lines 46–69): select categories, run `_detect`
(the parameter `detect`), and return the input text unchanged with the spans
as details. -/
def PIIGuardrail.validate (detect : String → List String → List PiiSpan)
    (params : List (String × PyVal)) (pattern : Option String)
    (userInput : String) : String × List PiiSpan :=
  let p := pattern.getD ""
  (userInput, detect userInput (piiSelectedTypes params p))

/-! ## Helper lemmas -/

/-- Trace of the pipeline fold: the guardrails that ran are exactly the
scope-filtered sublist, appended in order to the accumulator's trace. -/
theorem pipeline_trace (check : AgentGuardrail → String → String)
    (scope : GuardrailsScope) (grs : List AgentGuardrail) :
    ∀ acc : String × List AgentGuardrail,
      (grs.foldl
        (fun acc gr =>
          if gr.scope = scope ∨ gr.scope = GuardrailsScope.both then
            (check gr acc.1, acc.2 ++ [gr])
          else acc) acc).2
      = acc.2 ++ grs.filter
          (fun gr => decide (gr.scope = scope ∨ gr.scope = GuardrailsScope.both)) := by
  induction grs with
  | nil => intro acc; simp
  | cons gr grs ih =>
    intro acc
    by_cases h : gr.scope = scope ∨ gr.scope = GuardrailsScope.both
    · simp only [List.foldl_cons, if_pos h, List.filter_cons, decide_eq_true h,
        ih, List.append_assoc, List.singleton_append, if_true]
    · simp only [List.foldl_cons, if_neg h, List.filter_cons,
        decide_eq_false h, ih, Bool.false_eq_true, if_false]

/-! ## Claim theorems -/

/-- C1: for every evaluation performed by `GuardrailsHubAdapter.run`, over any
resolver, regex engine, delegate, input text, validator-configuration list and
runtime scope: if the returned details contain at least one Violation Record,
then the overall validity flag that `GuardrailsApiService.validate` computes
from those details (`guardrails_api_service.py` lines 74–85, which forces
`is_valid = False` whenever the violation list is nonempty) is false.  This
holds in particular when the only violation arose from a delegate invocation
exception under `on_fail = "noop"` — the case in which the details' own
`"valid"` entry stays true — as exercised by the witness. -/
theorem c1_violations_imply_overall_invalid
    (resolve : HubValidator → Option Cap)
    (search : PyVal → PyVal → Except String Bool)
    (invoke : Target → List (String × PyVal) → PyVal → Except String PyResult)
    (text : String) (cfgs : List HubValidator) (scope : Option String) :
    (GuardrailsHubAdapter.run resolve search invoke text cfgs scope).2.violations ≠ [] →
    apiHubIsValid (GuardrailsHubAdapter.run resolve search invoke text cfgs scope).2
      = false := by
  intro h
  unfold apiHubIsValid
  cases hv : (GuardrailsHubAdapter.run resolve search invoke text cfgs scope).2.violations with
  | nil => exact absurd hv h
  | cons x xs => simp [hv]

/-- C1 witness: a single validator with `on_fail = "noop"` whose delegate
invocation raises; the returned details carry one violation record, and the
API-service validity computed from them is false.  (The details' own `valid`
entry is true here — `invalid_flags` got `False` for the noop check — so this
exercises exactly the "in particular" case of the claim.) -/
theorem c1_witness :
    (GuardrailsHubAdapter.run (fun _ => some ("cap" : Cap))
        (fun _ _ => .ok true) (fun _ _ _ => .error "boom") "hello"
        [{ vtype := some "toxic_language", onFail := some "noop" }]
        none).2.violations ≠ []
    ∧ apiHubIsValid
        (GuardrailsHubAdapter.run (fun _ => some ("cap" : Cap))
          (fun _ _ => .ok true) (fun _ _ _ => .error "boom") "hello"
          [{ vtype := some "toxic_language", onFail := some "noop" }]
          none).2 = false :=
  ⟨fun h => List.noConfusion h,
   c1_violations_imply_overall_invalid _ _ _ _ _ _ (fun h => List.noConfusion h)⟩

/-- C2: a descriptor's check runs iff its scope `D` equals the runtime scope
`S` or is BOTH, in both places the repository filters by scope:
(1) `GuardrailsService.validate` executes exactly the guardrails passing
`gr.scope in (scope, GuardrailsScope.BOTH)`, in input order (the instrumented
trace equals the scope filter of the input list);
(2) the hub adapter's `_scope_matches` on the enum string values is exactly
`D == S or D == BOTH`; and
(3) a validator failing `_scope_matches` is skipped by the loop body of `run`
(state unchanged). -/
theorem c2_scope_filter_iff :
    (∀ (check : AgentGuardrail → String → String) (grs : List AgentGuardrail)
        (input : String) (S : GuardrailsScope),
      (GuardrailsService.validate check grs input S).2
        = grs.filter (fun gr => decide (gr.scope = S ∨ gr.scope = GuardrailsScope.both)))
    ∧ (∀ S D : GuardrailsScope,
        scopeMatchesRun (some D.value) (some S.value)
          = (decide (D = S) || decide (D = GuardrailsScope.both)))
    ∧ (∀ resolve search invoke rt st (v : HubValidator),
        scopeMatchesRun v.scope rt = false →
        runStep resolve search invoke rt st v = st) := by
  refine ⟨?_, ?_, ?_⟩
  · intro check grs input S
    simpa using pipeline_trace check S grs (input, [])
  · intro S D
    cases S <;> cases D <;> decide
  · intro resolve search invoke rt st v h
    unfold runStep
    simp [h]

/-- C2 witness: a concrete skipped validator — descriptor scope `output`
under runtime scope `input` fails `_scope_matches` and the loop body leaves
the state unchanged. -/
theorem c2_witness :
    scopeMatchesRun (some "output") (some "input") = false
    ∧ runStep (fun _ => none) (fun _ _ => .ok true) (fun _ _ _ => .ok .other)
        (some "input") ⟨.vStr "hello", [], []⟩ { scope := some "output" }
      = ⟨.vStr "hello", [], []⟩ :=
  ⟨by decide,
   c2_scope_filter_iff.2.2 _ _ _ _ _ _ (by decide)⟩

/-- C3: a delegate invocation that raises is caught and converted into a
Violation Record carrying the exception text — `run` returns normally with
exactly that record — and the per-check invalidity is controlled by
`on_fail`: for any nonempty `on_fail` value `f`, the overall valid flag of
the single-check run is `f == "noop"` (true exactly for `"noop"`), and with
`on_fail` absent (default `"exception"`), the flag is false.  The threaded
text is unchanged by the failed check. -/
theorem c3_exception_caught_on_fail :
    (∀ (f e text : String) (cap : Cap)
        (search : PyVal → PyVal → Except String Bool),
      f ≠ "" →
      GuardrailsHubAdapter.run (fun _ => some cap) search (fun _ _ _ => .error e)
        text [{ vtype := some "toxic_language", onFail := some f }] none
      = (.vStr text, ⟨decide (f = "noop"),
          [⟨"toxic_language", "both", [("on_fail", .vStr f)], e⟩]⟩))
    ∧ (∀ (e text : String) (cap : Cap)
        (search : PyVal → PyVal → Except String Bool),
      GuardrailsHubAdapter.run (fun _ => some cap) search (fun _ _ _ => .error e)
        text [{ vtype := some "toxic_language" }] none
      = (.vStr text, ⟨false,
          [⟨"toxic_language", "both", [("on_fail", .vStr "exception")], e⟩]⟩)) := by
  constructor
  · intro f e text cap search hf
    simp +decide [GuardrailsHubAdapter.run, runStep, scopeMatchesRun, regexShaped,
      typeNorm, hubIdNorm, buildParams, setDefault, forwardExtras, hasKey, dictGet,
      getDefault, computeTarget, pyNeqStr, pyOrStr, hf, strLower, strStrip,
      endsWithStr, optToPy, pyOr, truthy, redacted, List.any, decide_not]
  · intro e text cap search
    rfl

/-- C3 witness: `on_fail = "noop"` keeps the run's valid flag true while the
record of the caught exception is returned; `on_fail = "exception"` makes it
false. -/
theorem c3_witness :
    ("noop" : String) ≠ ""
    ∧ GuardrailsHubAdapter.run (fun _ => some ("cap" : Cap))
        (fun _ _ => .ok true) (fun _ _ _ => .error "boom") "hello"
        [{ vtype := some "toxic_language", onFail := some "noop" }] none
      = (.vStr "hello", ⟨true,
          [⟨"toxic_language", "both", [("on_fail", .vStr "noop")], "boom"⟩]⟩)
    ∧ GuardrailsHubAdapter.run (fun _ => some ("cap" : Cap))
        (fun _ _ => .ok true) (fun _ _ _ => .error "boom") "hello"
        [{ vtype := some "toxic_language", onFail := some "exception" }] none
      = (.vStr "hello", ⟨false,
          [⟨"toxic_language", "both", [("on_fail", .vStr "exception")], "boom"⟩]⟩) :=
  ⟨by decide,
   c3_exception_caught_on_fail.1 "noop" "boom" "hello" "cap" _ (by decide),
   c3_exception_caught_on_fail.1 "exception" "boom" "hello" "cap" _ (by decide)⟩

/-- C4: for every regex-shaped validator (type `regex`/`regex_match`, or a hub
identifier ending in a regex suffix) whose pattern chain
(`pattern`/`Pattern`/`params["pattern"]`/`params["regex"]`) is empty or
missing, the loop body records exactly one violation with error tag
`validator_missing_pattern` (with `invalid_flags` getting `True`) and leaves
the threaded text unchanged.  The right-hand side does not mention the
`invoke` parameter (the delegate), nor `search` or `resolve`: the delegate is
not invoked on this path, and the totality of `runStep` models that the path
never raises. -/
theorem c4_missing_pattern_violation
    (resolve : HubValidator → Option Cap)
    (search : PyVal → PyVal → Except String Bool)
    (invoke : Target → List (String × PyVal) → PyVal → Except String PyResult)
    (rt : Option String) (st : RunState) (v : HubValidator) :
    scopeMatchesRun v.scope rt = true →
    regexShaped v = true →
    truthy (patternChain v) = false →
    runStep resolve search invoke rt st v =
      { st with
        violations := st.violations ++
          [⟨pyOrStr v.vtype "unknown", pyOrStr v.scope "both",
            redacted v.params, "validator_missing_pattern"⟩],
        invalidFlags := st.invalidFlags ++ [true] } := by
  intro h1 h2 h3
  unfold runStep
  simp [h1, h2, h3]

/-- C4 witness: a `regex_match` validator with no pattern anywhere; the loop
body appends the `validator_missing_pattern` violation, for any delegate. -/
theorem c4_witness :
    (scopeMatchesRun (some "input") (some "input") = true
      ∧ regexShaped { vtype := some "regex_match" } = true
      ∧ truthy (patternChain { vtype := some "regex_match" }) = false)
    ∧ runStep (fun _ => some ("RegexMatch" : Cap)) (fun _ _ => .ok true)
        (fun _ _ _ => .ok .other) (some "input") ⟨.vStr "hello", [], []⟩
        { vtype := some "regex_match", scope := some "input" }
      = ⟨.vStr "hello",
         [⟨"regex_match", "input", [("on_fail", .vNone)], "validator_missing_pattern"⟩],
         [true]⟩ :=
  ⟨⟨by decide, by decide, by decide⟩,
   c4_missing_pattern_violation _ _ _ _ _ _ (by decide) (by decide) (by decide)⟩

/-- C5: when resolution finds no capability for a validator — the class
resolver returns `none` and the `hub_id`/`type` identifier fallback of
`target = cls or (v.get("hub_id") or v.get("type"))` is also empty — the loop
body records exactly one violation with error tag `validator_not_found`
(with `invalid_flags` getting `True`), leaves the threaded text unchanged,
and the fold continues with the remaining validators from the updated state.
The right-hand side mentions neither `invoke` nor `search`: no delegate is
called on this path, and the total model never raises (resolution failure is
the `none` value, produced without exception). -/
theorem c5_not_found_violation_continues
    (resolve : HubValidator → Option Cap)
    (search : PyVal → PyVal → Except String Bool)
    (invoke : Target → List (String × PyVal) → PyVal → Except String PyResult)
    (rt : Option String) (st : RunState) (v : HubValidator)
    (rest : List HubValidator) :
    scopeMatchesRun v.scope rt = true →
    truthy (optToPy v.vtype) = false →
    truthy (optToPy v.hubId) = false →
    resolve v = none →
    runStep resolve search invoke rt st v =
      { st with
        violations := st.violations ++
          [⟨pyOrStr v.vtype "unknown", pyOrStr v.scope "both",
            buildParams v, "validator_not_found"⟩],
        invalidFlags := st.invalidFlags ++ [true] }
    ∧ List.foldl (runStep resolve search invoke rt) st (v :: rest)
        = List.foldl (runStep resolve search invoke rt)
            (runStep resolve search invoke rt st v) rest := by
  intro h1 h2 h3 h4
  have ht : typeNorm v = "" := by
    unfold typeNorm
    cases hv : v.vtype with
    | none => rfl
    | some s =>
      have hs : s = "" := by simpa [optToPy, truthy, hv] using h2
      subst hs; rfl
  have hh : hubIdNorm v = "" := by
    unfold hubIdNorm
    cases hv : v.hubId with
    | none => rfl
    | some s =>
      have hs : s = "" := by simpa [optToPy, truthy, hv] using h3
      subst hs; rfl
  have hreg : regexShaped v = false := by
    unfold regexShaped; rw [ht, hh]; decide
  have htarget : computeTarget (resolve v) v = none := by
    rw [h4]; unfold computeTarget
    cases hv : v.vtype with
    | none =>
      cases hv2 : v.hubId with
      | none => rfl
      | some s =>
        have hs : s = "" := by simpa [optToPy, truthy, hv2] using h3
        subst hs; rfl
    | some s =>
      have hs : s = "" := by simpa [optToPy, truthy, hv] using h2
      subst hs
      cases hv2 : v.hubId with
      | none => rfl
      | some s2 =>
        have hs2 : s2 = "" := by simpa [optToPy, truthy, hv2] using h3
        subst hs2; rfl
  refine ⟨?_, rfl⟩
  unfold runStep
  simp [h1, hreg, htarget, buildParams]

/-- C5 witness: a validator dict with neither type nor hub id and a resolver
that finds nothing; the loop body appends the `validator_not_found`
violation and the two-element fold proceeds to the second validator. -/
theorem c5_witness :
    (scopeMatchesRun none (some "both") = true
      ∧ truthy (optToPy (none : Option String)) = false
      ∧ (fun (_ : HubValidator) => (none : Option Cap)) { } = none)
    ∧ runStep (fun _ => none) (fun _ _ => .ok true) (fun _ _ _ => .ok .other)
        (some "both") ⟨.vStr "hello", [], []⟩ { }
      = ⟨.vStr "hello",
         [⟨"unknown", "both", [("on_fail", .vStr "exception")], "validator_not_found"⟩],
         [true]⟩
    ∧ List.foldl
        (runStep (fun _ => none) (fun _ _ => .ok true) (fun _ _ _ => .ok .other)
          (some "both"))
        ⟨.vStr "hello", [], []⟩ [{ }, { scope := some "output" }]
      = List.foldl
          (runStep (fun _ => none) (fun _ _ => .ok true) (fun _ _ _ => .ok .other)
            (some "both"))
          (runStep (fun _ => none) (fun _ _ => .ok true) (fun _ _ _ => .ok .other)
            (some "both") ⟨.vStr "hello", [], []⟩ { })
          [{ scope := some "output" }] :=
  ⟨⟨by decide, by decide, rfl⟩,
   by
    have h := c5_not_found_violation_continues
      (fun _ => none) (fun _ _ => .ok true) (fun _ _ _ => .ok .other)
      (some "both") ⟨.vStr "hello", [], []⟩ { } [{ scope := some "output" }]
      (by decide) (by decide) (by decide) rfl
    exact ⟨h.1, h.2⟩⟩

/-- C6: the delegate-result normalization of `run`, over the full synonym
tables:
(1) a tuple whose first element is a string and second a boolean yields that
string as sanitized text and that boolean as validity (any further metadata
elements are ignored);
(2–4) a mapping yields as sanitized text its value at the first text-like
key among `text`, `validated_text`, `output` holding a truthy (nonempty)
string — one clause per key, each under falsiness of the earlier keys,
mirroring the priority of the `or`-chain of lines 277–282;
(5–9) a mapping yields as validity the truthiness of its value at the first
present validity-like key among `valid`, `is_valid`, `passed`, `ok`,
`success` — one clause per key, each under absence of the earlier keys,
mirroring the scan order of the loop at lines 283–286;
(10) a bare string is the sanitized text with validity true;
(11) a mapping with none of the validity-like keys defaults to validity
true, and (12) so does a one-element tuple (no boolean second element). -/
theorem c6_result_normalization :
    (∀ (prev : PyVal) (s : String) (b : Bool) (rest : List PyVal),
      parseResult prev (.tup (.vStr s :: .vBool b :: rest)) = (.vStr s, b))
    ∧ (∀ (prev : PyVal) (entries : List (String × PyVal)) (s : String),
        dictGet entries "text" = .vStr s → s ≠ "" →
        (parseResult prev (.pdict entries)).1 = .vStr s)
    ∧ (∀ (prev : PyVal) (entries : List (String × PyVal)) (s : String),
        truthy (dictGet entries "text") = false →
        dictGet entries "validated_text" = .vStr s → s ≠ "" →
        (parseResult prev (.pdict entries)).1 = .vStr s)
    ∧ (∀ (prev : PyVal) (entries : List (String × PyVal)) (s : String),
        truthy (dictGet entries "text") = false →
        truthy (dictGet entries "validated_text") = false →
        dictGet entries "output" = .vStr s → s ≠ "" →
        (parseResult prev (.pdict entries)).1 = .vStr s)
    ∧ (∀ (prev : PyVal) (entries : List (String × PyVal)),
        hasKey entries "valid" = true →
        (parseResult prev (.pdict entries)).2 = truthy (dictGet entries "valid"))
    ∧ (∀ (prev : PyVal) (entries : List (String × PyVal)),
        hasKey entries "valid" = false →
        hasKey entries "is_valid" = true →
        (parseResult prev (.pdict entries)).2 = truthy (dictGet entries "is_valid"))
    ∧ (∀ (prev : PyVal) (entries : List (String × PyVal)),
        hasKey entries "valid" = false →
        hasKey entries "is_valid" = false →
        hasKey entries "passed" = true →
        (parseResult prev (.pdict entries)).2 = truthy (dictGet entries "passed"))
    ∧ (∀ (prev : PyVal) (entries : List (String × PyVal)),
        hasKey entries "valid" = false →
        hasKey entries "is_valid" = false →
        hasKey entries "passed" = false →
        hasKey entries "ok" = true →
        (parseResult prev (.pdict entries)).2 = truthy (dictGet entries "ok"))
    ∧ (∀ (prev : PyVal) (entries : List (String × PyVal)),
        hasKey entries "valid" = false →
        hasKey entries "is_valid" = false →
        hasKey entries "passed" = false →
        hasKey entries "ok" = false →
        hasKey entries "success" = true →
        (parseResult prev (.pdict entries)).2 = truthy (dictGet entries "success"))
    ∧ (∀ (prev : PyVal) (s : String), parseResult prev (.pstr s) = (.vStr s, true))
    ∧ (∀ (prev : PyVal) (entries : List (String × PyVal)),
        (∀ k, k ∈ validityKeys → hasKey entries k = false) →
        (parseResult prev (.pdict entries)).2 = true)
    ∧ (∀ (prev : PyVal) (s : String),
        parseResult prev (.tup [.vStr s]) = (.vStr s, true)) := by
  refine ⟨?_, ?_, ?_, ?_, ?_, ?_, ?_, ?_, ?_, ?_, ?_, ?_⟩
  · intro prev s b rest
    simp [parseResult]
  · intro prev entries s hget hs
    simp [parseResult, pyOr, hget, truthy, hs]
  · intro prev entries s h0 hget hs
    have hts : truthy (PyVal.vStr s) = true := by simp [truthy, hs]
    simp [parseResult, pyOr, h0, hget, hts]
  · intro prev entries s h0 h1 hget hs
    have hts : truthy (PyVal.vStr s) = true := by simp [truthy, hs]
    simp [parseResult, pyOr, h0, h1, hget, hts]
  · intro prev entries hk
    simp [parseResult, validityKeys, findValidity, hk]
  · intro prev entries hv hk
    simp [parseResult, validityKeys, findValidity, hv, hk]
  · intro prev entries hv hi hk
    simp [parseResult, validityKeys, findValidity, hv, hi, hk]
  · intro prev entries hv hi hp hk
    simp [parseResult, validityKeys, findValidity, hv, hi, hp, hk]
  · intro prev entries hv hi hp ho hk
    simp [parseResult, validityKeys, findValidity, hv, hi, hp, ho, hk]
  · intro prev s
    rfl
  · intro prev entries hk
    simp [parseResult, validityKeys, findValidity,
      hk "valid" (by simp [validityKeys]),
      hk "is_valid" (by simp [validityKeys]),
      hk "passed" (by simp [validityKeys]),
      hk "ok" (by simp [validityKeys]),
      hk "success" (by simp [validityKeys])]
  · intro prev s
    rfl

/-- C6 witness: concrete instances of every enumerated shape, applying the
theorem with each hypothesis discharged at the concrete input: tuple;
mappings taking their text from `text`, `validated_text` and `output`
respectively; mappings taking their validity from each of `valid`,
`is_valid`, `passed`, `ok` and `success`; a bare string; and a mapping with
no validity key. -/
theorem c6_witness :
    parseResult (.vStr "prev") (.tup [.vStr "new", .vBool false, .vOther])
      = (.vStr "new", false)
    ∧ (dictGet [("text", .vStr "T"), ("valid", .vBool false)] "text" = .vStr "T"
        ∧ ("T" : String) ≠ ""
        ∧ (parseResult (.vStr "prev")
            (.pdict [("text", .vStr "T"), ("valid", .vBool false)])).1 = .vStr "T")
    ∧ (truthy (dictGet [("validated_text", .vStr "V"), ("is_valid", .vBool true)] "text")
          = false
        ∧ (parseResult (.vStr "prev")
            (.pdict [("validated_text", .vStr "V"), ("is_valid", .vBool true)])).1
          = .vStr "V")
    ∧ (parseResult (.vStr "prev")
        (.pdict [("text", .vStr ""), ("output", .vStr "O"), ("passed", .vBool false)])).1
      = .vStr "O"
    ∧ (hasKey [("text", .vStr "T"), ("valid", .vBool false)] "valid" = true
        ∧ (parseResult (.vStr "prev")
            (.pdict [("text", .vStr "T"), ("valid", .vBool false)])).2
          = truthy (dictGet [("text", .vStr "T"), ("valid", .vBool false)] "valid"))
    ∧ (hasKey [("validated_text", .vStr "V"), ("is_valid", .vBool true)] "valid" = false
        ∧ (parseResult (.vStr "prev")
            (.pdict [("validated_text", .vStr "V"), ("is_valid", .vBool true)])).2
          = truthy (dictGet [("validated_text", .vStr "V"), ("is_valid", .vBool true)]
              "is_valid"))
    ∧ (parseResult (.vStr "prev")
        (.pdict [("text", .vStr ""), ("output", .vStr "O"), ("passed", .vBool false)])).2
      = truthy (dictGet
          [("text", .vStr ""), ("output", .vStr "O"), ("passed", .vBool false)] "passed")
    ∧ (parseResult (.vStr "prev") (.pdict [("ok", .vBool true)])).2
      = truthy (dictGet [("ok", .vBool true)] "ok")
    ∧ (parseResult (.vStr "prev") (.pdict [("success", .vBool false)])).2
      = truthy (dictGet [("success", .vBool false)] "success")
    ∧ parseResult (.vStr "prev") (.pstr "bare") = (.vStr "bare", true)
    ∧ (parseResult (.vStr "prev") (.pdict [("output", .vStr "O")])).2 = true
    ∧ parseResult (.vStr "prev") (.tup [.vStr "solo"]) = (.vStr "solo", true) := by
  obtain ⟨h1, h2a, h2b, h2c, h3a, h3b, h3c, h3d, h3e, h4, h5, h6⟩ :=
    c6_result_normalization
  exact ⟨h1 (.vStr "prev") "new" false [.vOther],
    ⟨rfl, by decide, h2a (.vStr "prev") _ "T" rfl (by decide)⟩,
    ⟨by decide, h2b (.vStr "prev") _ "V" (by decide) rfl (by decide)⟩,
    h2c (.vStr "prev") _ "O" (by decide) (by decide) rfl (by decide),
    ⟨by decide, h3a (.vStr "prev") _ (by decide)⟩,
    ⟨by decide, h3b (.vStr "prev") _ (by decide) (by decide)⟩,
    h3c (.vStr "prev") _ (by decide) (by decide) (by decide),
    h3d (.vStr "prev") _ (by decide) (by decide) (by decide) (by decide),
    h3e (.vStr "prev") _ (by decide) (by decide) (by decide) (by decide) (by decide),
    h4 (.vStr "prev") "bare",
    h5 (.vStr "prev") [("output", .vStr "O")] (by intro k hk; fin_cases hk <;> decide),
    h6 (.vStr "prev") "solo"⟩

/-- C10: for a delegate result of the mapping shape, if every text-like key
among `text`/`validated_text`/`output` is absent or maps to a falsy value
(such as the empty string or `None`), the sanitized text stays the previously
threaded value; and, in consequence of the truthiness chain, a mapping-shaped
result can never change the threaded text to the empty string: if the
normalized text is the empty string, the previous text already was. -/
theorem c10_mapping_text_fallback (prev : PyVal) (entries : List (String × PyVal)) :
    (truthy (dictGet entries "text") = false →
      truthy (dictGet entries "validated_text") = false →
      truthy (dictGet entries "output") = false →
      (parseResult prev (.pdict entries)).1 = prev)
    ∧ ((parseResult prev (.pdict entries)).1 = .vStr "" → prev = .vStr "") := by
  constructor
  · intro h1 h2 h3
    simp [parseResult, pyOr, h1, h2, h3]
  · intro h
    by_cases h1 : truthy (dictGet entries "text")
    · simp only [parseResult, pyOr, h1, if_true] at h
      rw [h] at h1; simp [truthy] at h1
    · by_cases h2 : truthy (dictGet entries "validated_text")
      · simp only [parseResult, pyOr, h1, h2, if_true, if_false,
          Bool.false_eq_true] at h
        rw [h] at h2; simp [truthy] at h2
      · by_cases h3 : truthy (dictGet entries "output")
        · simp only [parseResult, pyOr, h1, h2, h3, if_true, if_false,
            Bool.false_eq_true] at h
          rw [h] at h3; simp [truthy] at h3
        · simp only [parseResult, pyOr, h1, h2, h3, if_false,
            Bool.false_eq_true] at h
          exact h

/-- C10 witness: a mapping whose `"text"` is the empty string and whose other
text-like keys are absent leaves the threaded text untouched. -/
theorem c10_witness :
    (truthy (dictGet [("text", PyVal.vStr ""), ("valid", PyVal.vBool true)] "text") = false
      ∧ (parseResult (.vStr "keep")
          (.pdict [("text", PyVal.vStr ""), ("valid", PyVal.vBool true)])).1
        = .vStr "keep")
    ∧ ((parseResult (.vStr "keep")
          (.pdict [("text", PyVal.vStr ""), ("valid", PyVal.vBool true)])).1
          = .vStr "" → PyVal.vStr "keep" = .vStr "") :=
  ⟨⟨by decide,
    (c10_mapping_text_fallback (.vStr "keep")
      [("text", PyVal.vStr ""), ("valid", PyVal.vBool true)]).1
      (by decide) (by decide) (by decide)⟩,
   (c10_mapping_text_fallback (.vStr "keep")
      [("text", PyVal.vStr ""), ("valid", PyVal.vBool true)]).2⟩

/-- Every index returned by the `finditer` scan is a word-boundary match. -/
theorem findFrom_wb (txt w : List Char) :
    ∀ (fuel i j : Nat), j ∈ findFrom txt w i fuel → wbMatchAt txt w j = true := by
  intro fuel
  induction fuel with
  | zero => intro i j h; simp [findFrom] at h
  | succ fuel ih =>
    intro i j h
    unfold findFrom at h
    by_cases hlen : txt.length < i + w.length
    · simp [hlen] at h
    · rw [if_neg hlen] at h
      by_cases hwb : wbMatchAt txt w i = true
      · rw [if_pos hwb] at h
        rcases List.mem_cons.mp h with rfl | h2
        · exact hwb
        · exact ih _ _ h2
      · rw [if_neg hwb] at h
        exact ih _ _ h

/-- Every span collected by the word-boundary search for a term `w` has a
value that lowercases to `w` (the pattern is the escaped literal matched
case-insensitively). -/
theorem wbSpans_lower (txt : List Char) (w : String) :
    ∀ sp ∈ wbSpans txt w.toList, strLower sp.value = w := by
  intro sp hsp
  unfold wbSpans at hsp
  rcases List.mem_map.mp hsp with ⟨i, hi, rfl⟩
  have hwb := findFrom_wb txt w.toList _ _ _ hi
  unfold wbMatchAt at hwb
  simp only [Bool.and_eq_true] at hwb
  have hm : matchesAt txt w.toList i = true := hwb.1.1
  unfold matchesAt at hm
  have heq := of_decide_eq_true hm
  show strLower (String.mk ((txt.drop i).take w.toList.length)) = w
  unfold strLower
  show String.mk (lowerChars ((txt.drop i).take w.toList.length)) = w
  rw [heq]
  rfl

/-- C7: the blocklist matcher, with the spec's example and the fallback
discipline.  (1) Pattern `"foo,bar"` on text `"I like foo and barstool"`
yields exactly a word-boundary match for `foo` at offsets 7–10 and a
substring-fallback match for `bar` inside `barstool` at offsets 15–18.
(2) In general, whenever the word-boundary search finds any occurrence of a
term, that term's loop iteration appends exactly those word-boundary spans
and no substring fallback — the fallback is added only when the
word-boundary search found nothing for that term. -/
theorem c7_blocklist_word_boundary_fallback :
    (BlocklistGuardrail.validate "foo,bar" "I like foo and barstool"
      = ("I like foo and barstool", [⟨7, 10, "foo"⟩, ⟨15, 18, "bar"⟩]))
    ∧ (∀ (txt : List Char) (acc : List Span) (w : String),
        wbSpans txt w.toList ≠ [] →
        blocklistStep txt acc w = acc ++ wbSpans txt w.toList) := by
  constructor
  · decide
  · intro txt acc w hne
    unfold blocklistStep
    cases hfind : substrFind (lowerChars txt) w.toList with
    | none => rfl
    | some idx =>
      have hany : ((acc ++ wbSpans txt w.toList).any
          (fun s => decide (strLower s.value = w))) = true := by
        rcases List.exists_mem_of_ne_nil _ hne with ⟨sp, hsp⟩
        exact List.any_eq_true.mpr
          ⟨sp, List.mem_append_right _ hsp,
           decide_eq_true (wbSpans_lower txt w sp hsp)⟩
      simp only [hany, if_true]

/-- C7 witness: instance of the general fallback-suppression statement — the
term `"foo"` has a word-boundary hit in `"a foo here"`, so its iteration
appends only that word-boundary span. -/
theorem c7_witness :
    wbSpans "a foo here".toList "foo".toList ≠ []
    ∧ blocklistStep "a foo here".toList [] "foo"
      = [] ++ wbSpans "a foo here".toList "foo".toList :=
  ⟨by decide,
   c7_blocklist_word_boundary_fallback.2 "a foo here".toList [] "foo" (by decide)⟩

/-- C8: the Regex detection check with an invalid pattern — one the external
`re.compile` rejects (modeled by the engine returning `none`) — returns
normally with zero match spans and the input text unchanged.  (An empty
pattern never reaches the engine and likewise yields zero matches.) -/
theorem c8_invalid_regex_zero_matches
    (compile : String → Option (String → List Span))
    (pattern : Option String) (input : String) :
    compile (pattern.getD "") = none →
    RegexGuardrail.validate compile pattern input = (input, []) := by
  intro h
  unfold RegexGuardrail.validate
  by_cases hp : pattern.getD "" = ""
  · simp [hp]
  · simp [hp, h]

/-- C8 witness: an engine rejecting the pattern `"("`; the check returns the
text unchanged with zero matches. -/
theorem c8_witness :
    ((fun _ : String => (none : Option (String → List Span))) ((some "(").getD "")
        = none)
    ∧ RegexGuardrail.validate (fun _ => none) (some "(") "hello (world"
      = ("hello (world", []) :=
  ⟨rfl, c8_invalid_regex_zero_matches (fun _ => none) (some "(") "hello (world" rfl⟩

/-- C9: the three detection checks always return the input text unchanged —
for every regex engine, pattern, blocklist pattern, PII detector, params and
input, the text component of the result is the input.  Matches are reported
only in the details (second component). -/
theorem c9_detection_checks_preserve_text :
    (∀ (compile : String → Option (String → List Span))
        (pattern : Option String) (input : String),
      (RegexGuardrail.validate compile pattern input).1 = input)
    ∧ (∀ (pattern input : String),
        (BlocklistGuardrail.validate pattern input).1 = input)
    ∧ (∀ (detect : String → List String → List PiiSpan)
        (params : List (String × PyVal)) (pattern : Option String)
        (input : String),
        (PIIGuardrail.validate detect params pattern input).1 = input) := by
  refine ⟨?_, ?_, ?_⟩
  · intro compile pattern input
    unfold RegexGuardrail.validate
    by_cases hp : pattern.getD "" = ""
    · simp [hp]
    · simp only [hp, if_false]
      cases compile (pattern.getD "") <;> rfl
  · intro pattern input; rfl
  · intro detect params pattern input; rfl

end GrSpec
